import Mathlib

/-!
Verification of the HR assistant dialogue core in main.py: the leave
slot-filling agent, the feedback adapter, the intent router and the
per-turn session orchestrator. Python dictionary values are modelled by
an explicit dynamic-value type; exceptions by Except; the external LLM
oracle and persistence sinks by explicit outcome parameters.
-/

namespace HRAssistant

/-- Dynamic value as stored in the Python dictionaries of main.py:
None, a string, an integer, or a list. -/
inductive PyVal where
  | none
  | vstr (s : String)
  | vint (n : Int)
  | vlist (xs : List PyVal)

mutual

/-- Model of Python repr, used by str on the elements of a list. -/
def pyRepr : PyVal → String
  | PyVal.none => "None"
  | PyVal.vstr s => "\x27" ++ s ++ "\x27"
  | PyVal.vint n => toString n
  | PyVal.vlist xs => "[" ++ pyReprList xs ++ "]"

/-- Comma-separated reprs of the elements of a list. -/
def pyReprList : List PyVal → String
  | [] => ""
  | [x] => pyRepr x
  | x :: rest => pyRepr x ++ ", " ++ pyReprList rest

end

/-- Model of the Python builtin str applied to a dictionary value. -/
def pyStr : PyVal → String
  | PyVal.none => "None"
  | PyVal.vstr s => s
  | PyVal.vint n => toString n
  | PyVal.vlist xs => "[" ++ pyReprList xs ++ "]"

/-- Model of Python truthiness for the modelled values: None, the empty
string, zero and the empty list are falsy. -/
def pyTruthy : PyVal → Bool
  | PyVal.none => false
  | PyVal.vstr s => s != ""
  | PyVal.vint n => n != 0
  | PyVal.vlist xs => !xs.isEmpty

/-- True exactly when the value is the Python None. -/
def isNull : PyVal → Bool
  | PyVal.none => true
  | _ => false

/-- Model of the whitespace stripping done by the Python str.strip
method, working on the character list of the string. -/
def stripChars (s : String) : String :=
  String.mk (((s.data.dropWhile Char.isWhitespace).reverse.dropWhile
    Char.isWhitespace).reverse)

/-- Model of the Python str.upper method. -/
def pyUpper (s : String) : String :=
  String.mk (s.data.map Char.toUpper)

/-- Accumulating decimal parse of a digit list; fails on a non-digit. -/
def digitsToNat (acc : Nat) : List Char → Option Nat
  | [] => some acc
  | c :: rest =>
      if c.isDigit then digitsToNat (acc * 10 + (c.toNat - 48)) rest
      else Option.none

/-- Model of the Python builtin int applied to the character list of a
stripped string: an optional sign followed by at least one digit. -/
def parseIntChars : List Char → Option Int
  | [] => Option.none
  | '-' :: rest =>
      if rest.isEmpty then Option.none
      else (digitsToNat 0 rest).map (fun n => -(n : Int))
  | '+' :: rest =>
      if rest.isEmpty then Option.none
      else (digitsToNat 0 rest).map (fun n => (n : Int))
  | l => (digitsToNat 0 l).map (fun n => (n : Int))

/-- Model of the Python builtin int applied to a dictionary value:
ints pass through, strings are stripped and parsed, everything else
(None, lists) raises, modelled as Option.none. -/
def pyToInt : PyVal → Option Int
  | PyVal.vint n => some n
  | PyVal.vstr s => parseIntChars (stripChars s).data
  | _ => Option.none

/-- The leave_state dictionary of main.py: the seven slots of the leave
draft, each holding None or an extracted value. The dictionary created
at module level and reset after submission always carries all seven
keys, so the model makes every field present. -/
structure LeaveDraft where
  employee_id : PyVal
  employee_name : PyVal
  leave_type : PyVal
  start_date : PyVal
  end_date : PyVal
  number_of_days : PyVal
  comments : PyVal

/-- The all-None draft: the initial leave_state and the value it is
reset to after a successful submission. -/
def emptyDraft : LeaveDraft :=
  { employee_id := PyVal.none, employee_name := PyVal.none,
    leave_type := PyVal.none, start_date := PyVal.none,
    end_date := PyVal.none, number_of_days := PyVal.none,
    comments := PyVal.none }

/-- One field of the merge loop in leave_agent: the candidate value
overwrites unless it is None. -/
def mergeField (old cand : PyVal) : PyVal :=
  match cand with
  | PyVal.none => old
  | v => v

/-- The merge loop of leave_agent: start from a copy of current_state
and overwrite each field whose candidate value is not None. -/
def mergeDraft (current cand : LeaveDraft) : LeaveDraft :=
  { employee_id := mergeField current.employee_id cand.employee_id,
    employee_name := mergeField current.employee_name cand.employee_name,
    leave_type := mergeField current.leave_type cand.leave_type,
    start_date := mergeField current.start_date cand.start_date,
    end_date := mergeField current.end_date cand.end_date,
    number_of_days := mergeField current.number_of_days cand.number_of_days,
    comments := mergeField current.comments cand.comments }

/-- The finalized leave_data dictionary built by leave_agent when the
draft is complete. -/
structure LeaveRecord where
  employee_id : String
  employee_name : String
  leave_type : String
  start_date : String
  end_date : String
  number_of_days : Int
  comments : String

/-- The parts of the JSON object returned by the extraction oracle that
leave_agent reads: the optional updated_state (absent key modelled by
Option.none) and the optional conversational message. The status and
leave_data keys of the oracle reply are overwritten unconditionally and
need no model. -/
structure LeaveOracleData where
  updated_state : Option LeaveDraft
  message : Option String

/-- Outcome of the extraction-oracle call in leave mode: an exception
or unparseable reply, or a parsed JSON object. -/
inductive LeaveOracle where
  | failure
  | success (data : LeaveOracleData)

/-- The dictionary returned by leave_agent. -/
structure LeaveResult where
  status : String
  updated_state : LeaveDraft
  message : Option String
  leave_data : Option LeaveRecord

/-- The fallback dictionary built by the exception handler of
leave_agent. -/
def leaveFailureResult (current_state : LeaveDraft) : LeaveResult :=
  { status := "missing",
    updated_state := current_state,
    message := some "Sorry, I didn\x27t catch that. Could you repeat?",
    leave_data := Option.none }

/-- The updated_state computed by leave_agent: a copy of current_state
when the oracle reply lacks the key, otherwise the merge of the
candidate into current_state. -/
def mergedState (current : LeaveDraft) (data : LeaveOracleData) : LeaveDraft :=
  match data.updated_state with
  | Option.none => current
  | some cand => mergeDraft current cand

/-- The completeness test of leave_agent: Python truthiness of the six
required fields, in the order of the required list. -/
def isCompleteCheck (d : LeaveDraft) : Bool :=
  pyTruthy d.employee_id && pyTruthy d.employee_name &&
  pyTruthy d.leave_type && pyTruthy d.start_date &&
  pyTruthy d.end_date && pyTruthy d.number_of_days

/-- The deterministic part of leave_agent in main.py. On oracle failure
the exception handler returns the fallback. On success the candidate is
merged, completeness is tested by truthiness, and a complete draft is
coerced into leave_data; a failing int coercion of number_of_days raises
inside the try block and lands in the same exception handler. The
comments coercion is str applied to the merged comments value: the
dictionary always carries the comments key, so the empty-string default
of the dict.get call never applies and a None comments value is
rendered as the string None. -/
def leave_agent (oracle : LeaveOracle) (current_state : LeaveDraft) : LeaveResult :=
  match oracle with
  | LeaveOracle.failure => leaveFailureResult current_state
  | LeaveOracle.success data =>
    let updated := mergedState current_state data
    if isCompleteCheck updated then
      match pyToInt updated.number_of_days with
      | Option.none => leaveFailureResult current_state
      | some n =>
        { status := "complete",
          updated_state := updated,
          message := data.message,
          leave_data := some
            { employee_id := pyStr updated.employee_id,
              employee_name := pyStr updated.employee_name,
              leave_type := pyStr updated.leave_type,
              start_date := pyStr updated.start_date,
              end_date := pyStr updated.end_date,
              number_of_days := n,
              comments := pyStr updated.comments } }
    else
      { status := "missing",
        updated_state := updated,
        message := data.message,
        leave_data := Option.none }

/-- The conversation_context dictionary of the main loop. -/
structure SessionContext where
  active_flow : Option String

/-- The mutable session state of the main loop: the leave_state draft
and the conversation context. -/
structure Session where
  leave_state : LeaveDraft
  context : SessionContext

/-- The submit_leave call: appends a row to the external sheet and
re-raises on any sink error, modelled by the sink outcome flag. -/
def submit_leave (sinkOk : Bool) : Except String Unit :=
  if sinkOk then Except.ok () else Except.error "sheet write failed"

/-- The submit_feedback call, with the same re-raise on sink error. -/
def submit_feedback (sinkOk : Bool) : Except String Unit :=
  if sinkOk then Except.ok () else Except.error "sheet write failed"

/-- The LEAVE branch of the main loop: set active_flow to LEAVE, run
leave_agent on the current draft, and either store the updated draft
and print its message (missing), or try the sink and on success clear
the draft and the flow, on failure keep both (complete). The returned
string is the line printed to the user. -/
def leaveBranch (sess : Session) (oracle : LeaveOracle) (sinkOk : Bool) :
    Session × String :=
  let sess1 : Session :=
    { leave_state := sess.leave_state,
      context := { active_flow := some "LEAVE" } }
  let result := leave_agent oracle sess1.leave_state
  if result.status == "missing" then
    ({ leave_state := result.updated_state, context := sess1.context },
      result.message.getD "Please provide more information.")
  else if result.status == "complete" then
    match submit_leave sinkOk with
    | Except.ok _ =>
      ({ leave_state := emptyDraft,
         context := { active_flow := Option.none } },
        "Leave submitted successfully! Status: Pending approval")
    | Except.error e =>
      (sess1, "Failed to submit leave. Please try again. Error: " ++ e)
  else
    ({ leave_state := sess1.leave_state,
       context := { active_flow := Option.none } },
      "Sorry, I\x27m not capable of handling this request.")

/-- The JSON object returned by the extraction oracle in feedback mode,
as read by feedback_agent: each key may be absent (Option.none) or hold
any value, including None or a list. -/
structure FeedbackOracleData where
  feedback : Option PyVal
  sentiment : Option PyVal
  action_items : Option PyVal

/-- Outcome of the oracle call in feedback mode. -/
inductive FeedbackOracle where
  | failure
  | success (data : FeedbackOracleData)

/-- The dictionary returned by feedback_agent. -/
structure FeedbackRecordOut where
  feedback : PyVal
  sentiment : PyVal
  action_items : PyVal

/-- The deterministic part of feedback_agent in main.py: list-valued
action_items are joined with a semicolon separator, list-valued
feedback with a space; setdefault then fills only absent keys with the
raw message, the string neutral, and the no-action text; a present
value, even None or outside the sentiment enum, is kept as is. The
exception handler returns the fully defaulted record. -/
def feedback_agent (oracle : FeedbackOracle) (message : String) :
    FeedbackRecordOut :=
  match oracle with
  | FeedbackOracle.failure =>
    { feedback := PyVal.vstr message,
      sentiment := PyVal.vstr "neutral",
      action_items := PyVal.vstr "No specific action required" }
  | FeedbackOracle.success data =>
    let ai : Option PyVal :=
      match data.action_items with
      | some (PyVal.vlist xs) =>
          some (PyVal.vstr (String.intercalate "; " (xs.map pyStr)))
      | v => v
    let fb : Option PyVal :=
      match data.feedback with
      | some (PyVal.vlist xs) =>
          some (PyVal.vstr (String.intercalate " " (xs.map pyStr)))
      | v => v
    { feedback := fb.getD (PyVal.vstr message),
      sentiment := data.sentiment.getD (PyVal.vstr "neutral"),
      action_items := ai.getD (PyVal.vstr "No specific action required") }

/-- Whether pat occurs as a contiguous sublist: the model of the Python
in operator on strings, used on the character lists. -/
def listHasInfix (pat : List Char) : List Char → Bool
  | [] => pat.isEmpty
  | c :: rest => pat.isPrefixOf (c :: rest) || listHasInfix pat rest

/-- Model of the Python substring test pat in s. -/
def containsTok (s pat : String) : Bool :=
  listHasInfix pat.data s.data

/-- The deterministic part of universal_agent in main.py: an empty or
whitespace-only message short-circuits to the empty string before the
oracle is consulted or the context read; an oracle exception yields the
empty string; otherwise the reply is stripped and uppercased, matched
exactly against the three labels, then scanned for each label as a
substring in the order POLICY, LEAVE, FEEDBACK, and finally treated as
empty. The context parameter only shapes the prompt sent to the oracle
and never reaches this logic. -/
def universal_agent (message : String) (_current_context : SessionContext)
    (oracle : Option String) : String :=
  if stripChars message == "" then ""
  else
    match oracle with
    | Option.none => ""
    | some content =>
      let intent := pyUpper (stripChars content)
      if intent == "POLICY" || intent == "LEAVE" || intent == "FEEDBACK" then
        intent
      else if containsTok intent "POLICY" then "POLICY"
      else if containsTok intent "LEAVE" then "LEAVE"
      else if containsTok intent "FEEDBACK" then "FEEDBACK"
      else ""

/-- The outcomes of every external call a single turn of the main loop
can make: intent oracle, leave and feedback extraction oracles, the two
sheet sinks, and the policy answer (policy_chat handles its own errors
and always returns a string). -/
structure TurnEnv where
  intentOracle : Option String
  leaveOracle : LeaveOracle
  feedbackOracle : FeedbackOracle
  leaveSinkOk : Bool
  feedbackSinkOk : Bool
  policyAnswer : String

/-- The body of one iteration of the main loop, between reading a
non-empty non-exit line and the outer exception handler. Each branch
contains its own handlers exactly where main.py has try blocks, so the
body itself never escapes with an error for the modelled failure
modes; the Except type records where an unhandled exception would
travel. The returned string is the line printed for the turn. -/
def processTurnBody (sess : Session) (user_input : String) (env : TurnEnv) :
    Except String (Session × String) :=
  let intent := universal_agent user_input sess.context env.intentOracle
  if intent == "" then
    Except.ok ({ leave_state := sess.leave_state,
                 context := { active_flow := Option.none } },
      "I couldn\x27t understand your request. I can help with leave applications, policy questions, or feedback.")
  else if intent == "POLICY" then
    Except.ok ({ leave_state := sess.leave_state,
                 context := { active_flow := Option.none } },
      env.policyAnswer)
  else if intent == "FEEDBACK" then
    let sess1 : Session :=
      { leave_state := sess.leave_state,
        context := { active_flow := Option.none } }
    let _record := feedback_agent env.feedbackOracle user_input
    match submit_feedback env.feedbackSinkOk with
    | Except.ok _ =>
      Except.ok (sess1, "Thank you for your feedback! It has been recorded.")
    | Except.error e =>
      Except.ok (sess1,
        "Sorry, I couldn\x27t record your feedback. Please try again later. Error: " ++ e)
  else if intent == "LEAVE" then
    Except.ok (leaveBranch sess env.leaveOracle env.leaveSinkOk)
  else
    Except.ok ({ leave_state := sess.leave_state,
                 context := { active_flow := Option.none } },
      "Sorry, I\x27m not capable of handling this request. I can help with leave applications, policy questions, or feedback.")

/-- One full turn of the main loop including the outer exception
handler, which prints a generic message and continues the loop. -/
def processTurn (sess : Session) (user_input : String) (env : TurnEnv) :
    Except String (Session × String) :=
  match processTurnBody sess user_input env with
  | Except.ok r => Except.ok r
  | Except.error e =>
    Except.ok (sess, "An unexpected error occurred: " ++ e ++ " Please try again.")

/-- Modelled from the spec: the repository keeps no deterministic date
resolver in src; the date arithmetic of section 4.1 is delegated to the
Extraction Oracle through the AUTO-CALCULATE instructions of the
leave_agent prompt (start_date plus number_of_days gives end_date,
start_date plus end_date gives number_of_days, a lone start_date
defaults to one day, and two supplied values are trusted without
recomputation). Dates are modelled as absolute day indices; the result
is the resolved pair of end date and day count. -/
def resolveDates (start : Int) (endDate : Option Int) (days : Option Int) :
    Int × Int :=
  match endDate, days with
  | some e, some d => (e, d)
  | Option.none, some d => (start + (d - 1), d)
  | some e, Option.none => (e, (e - start) + 1)
  | Option.none, Option.none => (start, 1)

/-- A fully filled candidate extraction with the comments slot left at
None, used as a concrete input in several evaluations. -/
def sampleDraftVals : LeaveDraft :=
  { employee_id := PyVal.vstr "482",
    employee_name := PyVal.vstr "John Doe",
    leave_type := PyVal.vstr "sick",
    start_date := PyVal.vstr "2026-01-08",
    end_date := PyVal.vstr "2026-01-10",
    number_of_days := PyVal.vint 3,
    comments := PyVal.none }

/-- The parsed oracle reply carrying sampleDraftVals as
updated_state. -/
def sampleOracleData : LeaveOracleData :=
  { updated_state := some sampleDraftVals, message := some "All set!" }

/-- The oracle reply carrying sampleDraftVals as updated_state. -/
def sampleOracle : LeaveOracle :=
  LeaveOracle.success sampleOracleData

/-- Per-field behaviour of the merge loop: a None candidate keeps the
old value, any other candidate value replaces it. -/
theorem mergeField_spec (old cand : PyVal) :
    (cand = PyVal.none → mergeField old cand = old) ∧
    (cand ≠ PyVal.none → mergeField old cand = cand) := by
  cases cand <;> simp [mergeField]

/-- Claim C2: merge semantics of leave_agent. For every draft D and
candidate extraction C and for each of the seven fields, the merged
draft keeps the field of D when the candidate field is null and takes
the candidate field when it is non-null. -/
theorem merge_preserves_and_overwrites (D C : LeaveDraft) :
    ((C.employee_id = PyVal.none →
        (mergeDraft D C).employee_id = D.employee_id) ∧
      (C.employee_id ≠ PyVal.none →
        (mergeDraft D C).employee_id = C.employee_id)) ∧
    ((C.employee_name = PyVal.none →
        (mergeDraft D C).employee_name = D.employee_name) ∧
      (C.employee_name ≠ PyVal.none →
        (mergeDraft D C).employee_name = C.employee_name)) ∧
    ((C.leave_type = PyVal.none →
        (mergeDraft D C).leave_type = D.leave_type) ∧
      (C.leave_type ≠ PyVal.none →
        (mergeDraft D C).leave_type = C.leave_type)) ∧
    ((C.start_date = PyVal.none →
        (mergeDraft D C).start_date = D.start_date) ∧
      (C.start_date ≠ PyVal.none →
        (mergeDraft D C).start_date = C.start_date)) ∧
    ((C.end_date = PyVal.none →
        (mergeDraft D C).end_date = D.end_date) ∧
      (C.end_date ≠ PyVal.none →
        (mergeDraft D C).end_date = C.end_date)) ∧
    ((C.number_of_days = PyVal.none →
        (mergeDraft D C).number_of_days = D.number_of_days) ∧
      (C.number_of_days ≠ PyVal.none →
        (mergeDraft D C).number_of_days = C.number_of_days)) ∧
    ((C.comments = PyVal.none →
        (mergeDraft D C).comments = D.comments) ∧
      (C.comments ≠ PyVal.none →
        (mergeDraft D C).comments = C.comments)) :=
  ⟨mergeField_spec _ _, mergeField_spec _ _, mergeField_spec _ _,
    mergeField_spec _ _, mergeField_spec _ _, mergeField_spec _ _,
    mergeField_spec _ _⟩

/-- Witness for claim C2 at a concrete draft and candidate: the None
employee_id of the candidate is preserved and its non-null
employee_name overwrites. -/
theorem merge_preserves_and_overwrites_witness :
    (mergeDraft sampleDraftVals
        { emptyDraft with employee_name := PyVal.vstr "Jane" }).employee_id =
      sampleDraftVals.employee_id ∧
    (mergeDraft sampleDraftVals
        { emptyDraft with employee_name := PyVal.vstr "Jane" }).employee_name =
      PyVal.vstr "Jane" :=
  ⟨(merge_preserves_and_overwrites sampleDraftVals
      { emptyDraft with employee_name := PyVal.vstr "Jane" }).1.1 rfl,
    (merge_preserves_and_overwrites sampleDraftVals
      { emptyDraft with employee_name := PyVal.vstr "Jane" }).2.1.2
      (by intro h; exact PyVal.noConfusion h)⟩

/-- Claim C3: oracle-failure atomicity. When the extraction oracle
fails on a leave turn, the draft after the turn equals the draft
before it, active_flow is LEAVE, and the printed line is the generic
retry prompt from the exception handler of leave_agent. -/
theorem oracle_failure_is_noop (sess : Session) (sinkOk : Bool) :
    (leaveBranch sess LeaveOracle.failure sinkOk).1.leave_state =
      sess.leave_state ∧
    (leaveBranch sess LeaveOracle.failure sinkOk).1.context.active_flow =
      some "LEAVE" ∧
    (leaveBranch sess LeaveOracle.failure sinkOk).2 =
      "Sorry, I didn\x27t catch that. Could you repeat?" :=
  ⟨rfl, rfl, rfl⟩

/-- Claim C4: date triangle consistency of the resolver. With a start
date and a day count of at least one, the resolved end date is start
plus count minus one; with a start and a later-or-equal end date, the
resolved count is the difference plus one. -/
theorem resolveDates_triangle (start e d : Int) :
    (1 ≤ d → (resolveDates start Option.none (some d)).1 = start + (d - 1)) ∧
    (start ≤ e → (resolveDates start (some e) Option.none).2 = (e - start) + 1) :=
  ⟨fun _ => rfl, fun _ => rfl⟩

/-- Witness for claim C4 at start 20100, three days, end 20102. -/
theorem resolveDates_triangle_witness :
    (resolveDates 20100 Option.none (some 3)).1 = 20100 + (3 - 1) ∧
    (resolveDates 20100 (some 20102) Option.none).2 = (20102 - 20100) + 1 :=
  ⟨(resolveDates_triangle 20100 20102 3).1 (by decide),
    (resolveDates_triangle 20100 20102 3).2 (by decide)⟩

/-- Claim C5: evaluation of leave_agent at a complete draft whose
comments slot is None. The id and name are coerced to strings and the
day count to an integer, but the comments field of the emitted record
is the four-character string None rather than the empty string: the
empty-string default of the dict.get call never fires because the
merged dictionary always carries the comments key. -/
theorem complete_record_comments_is_None_string :
    (leave_agent sampleOracle emptyDraft).status = "complete" ∧
    (leave_agent sampleOracle emptyDraft).leave_data =
      some { employee_id := "482", employee_name := "John Doe",
             leave_type := "sick", start_date := "2026-01-08",
             end_date := "2026-01-10", number_of_days := 3,
             comments := "None" } :=
  ⟨rfl, rfl⟩

/-- Claim C10: an empty or whitespace-only message makes
universal_agent return the empty string at once, with the same result
for every oracle outcome and every session context. -/
theorem empty_message_short_circuits (message : String)
    (ctx ctx2 : SessionContext) (oracle oracle2 : Option String)
    (h : stripChars message = "") :
    universal_agent message ctx oracle = "" ∧
    universal_agent message ctx oracle =
      universal_agent message ctx2 oracle2 := by
  constructor <;> simp [universal_agent, h]

/-- Witness for claim C10 at a whitespace-only message. -/
theorem empty_message_short_circuits_witness :
    universal_agent "   " { active_flow := some "LEAVE" }
        (some "FEEDBACK") = "" ∧
    universal_agent "   " { active_flow := some "LEAVE" }
        (some "FEEDBACK") =
      universal_agent "   " { active_flow := Option.none } Option.none :=
  empty_message_short_circuits "   " { active_flow := some "LEAVE" }
    { active_flow := Option.none } (some "FEEDBACK") Option.none rfl



/-- A candidate extraction that fills every slot but whose employee_id
is the empty string: every required field is non-null, yet the empty
string is falsy. -/
def blankIdCand : LeaveDraft :=
  { sampleDraftVals with employee_id := PyVal.vstr "" }

/-- The parsed oracle reply carrying blankIdCand. -/
def blankIdOracleData : LeaveOracleData :=
  { updated_state := some blankIdCand, message := Option.none }

/-- Counterexample to claim C1 as stated: after merging blankIdCand
into the empty draft, all six required fields are non-null, yet
leave_agent reports status missing with null leave_data, because the
completeness test uses Python truthiness, not a null test. -/
theorem completeness_counterexample :
    (leave_agent (LeaveOracle.success blankIdOracleData) emptyDraft).status =
      "missing" ∧
    (leave_agent (LeaveOracle.success blankIdOracleData) emptyDraft).leave_data =
      Option.none ∧
    isNull (leave_agent (LeaveOracle.success blankIdOracleData)
        emptyDraft).updated_state.employee_id = false ∧
    isNull (leave_agent (LeaveOracle.success blankIdOracleData)
        emptyDraft).updated_state.employee_name = false ∧
    isNull (leave_agent (LeaveOracle.success blankIdOracleData)
        emptyDraft).updated_state.leave_type = false ∧
    isNull (leave_agent (LeaveOracle.success blankIdOracleData)
        emptyDraft).updated_state.start_date = false ∧
    isNull (leave_agent (LeaveOracle.success blankIdOracleData)
        emptyDraft).updated_state.end_date = false ∧
    isNull (leave_agent (LeaveOracle.success blankIdOracleData)
        emptyDraft).updated_state.number_of_days = false :=
  ⟨rfl, rfl, rfl, rfl, rfl, rfl, rfl, rfl⟩

/-- Claim C1 as amended: on a parsed oracle reply, leave_agent reports
status complete with non-null leave_data exactly when all six required
fields of the merged draft are Python-truthy and the day count coerces
to an integer; in every other case the status is missing and
leave_data is null. -/
theorem completeness_gating (data : LeaveOracleData) (current : LeaveDraft) :
    ((isCompleteCheck (mergedState current data) = true ∧
        (pyToInt (mergedState current data).number_of_days).isSome = true) →
      (leave_agent (LeaveOracle.success data) current).status = "complete" ∧
      (leave_agent (LeaveOracle.success data) current).leave_data ≠
        Option.none) ∧
    (¬ (isCompleteCheck (mergedState current data) = true ∧
        (pyToInt (mergedState current data).number_of_days).isSome = true) →
      (leave_agent (LeaveOracle.success data) current).status = "missing" ∧
      (leave_agent (LeaveOracle.success data) current).leave_data =
        Option.none) := by
  constructor
  · rintro ⟨hC, hN⟩
    obtain ⟨n, hn⟩ := Option.isSome_iff_exists.mp hN
    simp [leave_agent, hC, hn]
  · intro h
    cases hC : isCompleteCheck (mergedState current data) with
    | false => simp [leave_agent, hC]
    | true =>
      cases hN : pyToInt (mergedState current data).number_of_days with
      | none => simp [leave_agent, hC, hN, leaveFailureResult]
      | some n => exact absurd ⟨hC, by simp [hN]⟩ h

/-- Witness for the amended claim C1 at a concrete complete reply. -/
theorem completeness_gating_witness :
    (leave_agent (LeaveOracle.success sampleOracleData) emptyDraft).status =
      "complete" ∧
    (leave_agent (LeaveOracle.success sampleOracleData) emptyDraft).leave_data ≠
      Option.none :=
  (completeness_gating sampleOracleData emptyDraft).1 ⟨rfl, rfl⟩

/-- Claim C6: sink-failure retention. When leave_agent reports a
complete record, a failing sheet write leaves leave_state exactly as it
was before the turn and keeps active_flow at LEAVE, while a successful
write clears the draft to all-null. -/
theorem sink_failure_retains_draft (sess : Session) (oracle : LeaveOracle)
    (h : (leave_agent oracle sess.leave_state).status = "complete") :
    (leaveBranch sess oracle false).1.leave_state = sess.leave_state ∧
    (leaveBranch sess oracle false).1.context.active_flow = some "LEAVE" ∧
    (leaveBranch sess oracle true).1.leave_state = emptyDraft := by
  refine ⟨?_, ?_, ?_⟩ <;> simp [leaveBranch, h, submit_leave]

/-- A fresh session: empty draft and no active flow. -/
def freshSession : Session :=
  { leave_state := emptyDraft, context := { active_flow := Option.none } }

/-- Witness for claim C6 at a concrete complete turn. -/
theorem sink_failure_retains_draft_witness :
    (leaveBranch freshSession sampleOracle false).1.leave_state =
      freshSession.leave_state ∧
    (leaveBranch freshSession sampleOracle false).1.context.active_flow =
      some "LEAVE" ∧
    (leaveBranch freshSession sampleOracle true).1.leave_state = emptyDraft :=
  sink_failure_retains_draft freshSession sampleOracle rfl

/-- An oracle reply in feedback mode whose sentiment is present but far
outside the expected enum. -/
def badSentimentData : FeedbackOracleData :=
  { feedback := some (PyVal.vstr "food is bad"),
    sentiment := some (PyVal.vstr "HORRIBLE"),
    action_items := some (PyVal.vstr "review food quality") }

/-- Counterexample to claim C7 as stated: a present but malformed
sentiment value is returned unchanged by feedback_agent, not defaulted
to neutral, because setdefault only fills absent keys. -/
theorem malformed_sentiment_counterexample :
    (feedback_agent (FeedbackOracle.success badSentimentData)
        "food is bad").sentiment = PyVal.vstr "HORRIBLE" ∧
    PyVal.vstr "HORRIBLE" ≠ PyVal.vstr "neutral" ∧
    PyVal.vstr "HORRIBLE" ≠ PyVal.vstr "Neutral" := by
  refine ⟨rfl, ?_, ?_⟩ <;>
    · intro h
      injection h with h2
      exact absurd h2 (by decide)

/-- Claim C7 as amended: feedback_agent always produces a record; on
oracle failure it is the fully defaulted record built from the raw
utterance; absent keys are defaulted (feedback to the utterance,
sentiment to neutral, action_items to the no-action text); list values
are joined (semicolon separator for action_items, space for feedback);
and a present sentiment value is passed through unchanged, malformed
or not. -/
theorem feedback_defaults (message : String) (data : FeedbackOracleData) :
    (feedback_agent FeedbackOracle.failure message =
      { feedback := PyVal.vstr message,
        sentiment := PyVal.vstr "neutral",
        action_items := PyVal.vstr "No specific action required" }) ∧
    (data.sentiment = Option.none →
      (feedback_agent (FeedbackOracle.success data) message).sentiment =
        PyVal.vstr "neutral") ∧
    (∀ v, data.sentiment = some v →
      (feedback_agent (FeedbackOracle.success data) message).sentiment = v) ∧
    (data.feedback = Option.none →
      (feedback_agent (FeedbackOracle.success data) message).feedback =
        PyVal.vstr message) ∧
    (∀ xs, data.feedback = some (PyVal.vlist xs) →
      (feedback_agent (FeedbackOracle.success data) message).feedback =
        PyVal.vstr (String.intercalate " " (xs.map pyStr))) ∧
    (data.action_items = Option.none →
      (feedback_agent (FeedbackOracle.success data) message).action_items =
        PyVal.vstr "No specific action required") ∧
    (∀ xs, data.action_items = some (PyVal.vlist xs) →
      (feedback_agent (FeedbackOracle.success data) message).action_items =
        PyVal.vstr (String.intercalate "; " (xs.map pyStr))) := by
  obtain ⟨f, s, a⟩ := data
  refine ⟨rfl, ?_, ?_, ?_, ?_, ?_, ?_⟩
  · intro h
    simp only at h
    subst h
    simp [feedback_agent]
  · intro v h
    simp only at h
    subst h
    simp [feedback_agent]
  · intro h
    simp only at h
    subst h
    simp [feedback_agent]
  · intro xs h
    simp only at h
    subst h
    simp [feedback_agent]
  · intro h
    simp only at h
    subst h
    simp [feedback_agent]
  · intro xs h
    simp only at h
    subst h
    simp [feedback_agent]

/-- An oracle reply in feedback mode with absent feedback and sentiment
keys and a list of action items. -/
def listActionData : FeedbackOracleData :=
  { feedback := Option.none,
    sentiment := Option.none,
    action_items := some (PyVal.vlist
      [PyVal.vstr "check menu", PyVal.vstr "add tea"]) }

/-- Witness for the amended claim C7: the list of action items is
joined and the absent sentiment key is defaulted. -/
theorem feedback_defaults_witness :
    (feedback_agent (FeedbackOracle.success listActionData)
        "hi").action_items =
      PyVal.vstr (String.intercalate "; "
        ([PyVal.vstr "check menu", PyVal.vstr "add tea"].map pyStr)) ∧
    (feedback_agent (FeedbackOracle.success listActionData) "hi").sentiment =
      PyVal.vstr "neutral" :=
  ⟨(feedback_defaults "hi" listActionData).2.2.2.2.2.2
      [PyVal.vstr "check menu", PyVal.vstr "add tea"] rfl,
    (feedback_defaults "hi" listActionData).2.1 rfl⟩

/-- Counterexample to claim C8 as stated: an oracle string that is not
one of the three labels is not treated as empty when a label occurs
inside it; the substring scan salvages LEAVE from it. -/
theorem router_salvages_substring :
    universal_agent "hello" { active_flow := Option.none }
        (some "PLEASE LEAVE") = "LEAVE" ∧
    ("PLEASE LEAVE" ∉ (["POLICY", "LEAVE", "FEEDBACK"] : List String)) ∧
    ("LEAVE" : String) ≠ "" :=
  ⟨rfl, by decide, by decide⟩

/-- Claim C8 as amended: universal_agent always returns one of POLICY,
LEAVE, FEEDBACK or the empty string; and an oracle string in which no
label occurs, even as a substring after stripping and uppercasing, is
treated as empty. -/
theorem router_codomain (message : String) (ctx : SessionContext)
    (oracle : Option String) :
    (universal_agent message ctx oracle = "POLICY" ∨
     universal_agent message ctx oracle = "LEAVE" ∨
     universal_agent message ctx oracle = "FEEDBACK" ∨
     universal_agent message ctx oracle = "") ∧
    (∀ content, oracle = some content →
      containsTok (pyUpper (stripChars content)) "POLICY" = false →
      containsTok (pyUpper (stripChars content)) "LEAVE" = false →
      containsTok (pyUpper (stripChars content)) "FEEDBACK" = false →
      universal_agent message ctx oracle = "") := by
  constructor
  · unfold universal_agent
    split
    · exact Or.inr (Or.inr (Or.inr rfl))
    · cases oracle with
      | none => exact Or.inr (Or.inr (Or.inr rfl))
      | some content =>
        dsimp only
        split
        · rename_i hcond
          simp only [Bool.or_eq_true, beq_iff_eq] at hcond
          tauto
        · split
          · exact Or.inl rfl
          · split
            · exact Or.inr (Or.inl rfl)
            · split
              · exact Or.inr (Or.inr (Or.inl rfl))
              · exact Or.inr (Or.inr (Or.inr rfl))
  · intro content hc h1 h2 h3
    subst hc
    have e1 : (pyUpper (stripChars content) == "POLICY") = false := by
      cases hb : (pyUpper (stripChars content) == "POLICY") with
      | false => rfl
      | true =>
        exfalso
        rw [eq_of_beq hb] at h1
        have ht : containsTok "POLICY" "POLICY" = true := by decide
        rw [ht] at h1
        exact Bool.noConfusion h1
    have e2 : (pyUpper (stripChars content) == "LEAVE") = false := by
      cases hb : (pyUpper (stripChars content) == "LEAVE") with
      | false => rfl
      | true =>
        exfalso
        rw [eq_of_beq hb] at h2
        have ht : containsTok "LEAVE" "LEAVE" = true := by decide
        rw [ht] at h2
        exact Bool.noConfusion h2
    have e3 : (pyUpper (stripChars content) == "FEEDBACK") = false := by
      cases hb : (pyUpper (stripChars content) == "FEEDBACK") with
      | false => rfl
      | true =>
        exfalso
        rw [eq_of_beq hb] at h3
        have ht : containsTok "FEEDBACK" "FEEDBACK" = true := by decide
        rw [ht] at h3
        exact Bool.noConfusion h3
    unfold universal_agent
    cases hm : (stripChars message == "") with
    | true => simp [hm]
    | false => simp [hm, e1, e2, e3, h1, h2, h3]

/-- Witness for the amended claim C8: an oracle string containing no
label is treated as empty. -/
theorem router_codomain_witness :
    universal_agent "hello" { active_flow := Option.none } (some "HMMM") =
      "" :=
  (router_codomain "hello" { active_flow := Option.none }
    (some "HMMM")).2 "HMMM" rfl rfl rfl rfl

/-- Claim C9: per-turn error containment. For every session, input and
combination of external outcomes, the full turn of the main loop
finishes with an ok result: no modelled failure, oracle or sink,
escapes past the per-turn boundary, so the loop continues. -/
theorem turn_never_escapes (sess : Session) (user_input : String)
    (env : TurnEnv) :
    ∃ r, processTurn sess user_input env = Except.ok r := by
  unfold processTurn
  cases processTurnBody sess user_input env with
  | error e => exact ⟨_, rfl⟩
  | ok r => exact ⟨_, rfl⟩

end HRAssistant
